import Mathlib

/-!
Verification of the collection-lifecycle client (`src/client.rs`) of the
milvus-sdk-rust fragment.

The file shallowly embeds `Client::new`, `Client::create_collection`,
`Client::drop_collection`, `Client::has_collection` and
`Client::get_collection`.  Each RPC exchange is modelled by passing the
transport as an explicit oracle (a function from the request message to the
exchange's outcome); an operation returns the list of requests it handed to
the transport together with its result, so that "no request was sent" and
"exactly one exchange, no retry" are provable facts.

The error type, the generated proto messages, the status-code enumeration and
the helper `new_msg` live outside the given sources; they are modelled from
the specification and marked as such in their doc comments.
-/

namespace MilvusClient

/-- The transport channel handle (`tonic::transport::Channel`).  Modelled as an
opaque identifier: cloning it per call yields the same value, matching the
spec's note that cloning the handle has no semantic difference. -/
abbrev Channel := Nat

/-- A transport-level connection-setup failure cause, opaque to this core. -/
abbrev TransportError := String

/-- An in-flight RPC exchange failure (`tonic::Status` on the error side),
opaque to this core and surfaced as-is. -/
abbrev RpcError := String

/-- Modelled from the spec: the message-type tag of the common base header,
"an enumerated tag distinguishing Create/Drop/Has" (the full generated
`MsgType` enumeration is not among the sources). -/
inductive MsgType where
  | Undefined
  | CreateCollection
  | DropCollection
  | HasCollection
  deriving DecidableEq, Repr

/-- Modelled from the spec: the common base header carried by every request,
"identifying the call's message type" (the generated `MsgBase` message is not
among the sources; only the message-type tag is specified). -/
structure MsgBase where
  msg_type : MsgType
  deriving DecidableEq, Repr

/-- Modelled from the spec: `utils::new_msg`, absent from the sources — builds
the base header carrying the given message-type tag. -/
def new_msg (t : MsgType) : MsgBase := { msg_type := t }

/-- Modelled from the spec: the common `Status` message embedded in every RPC
response, carrying an enumerated result code (as a wire integer) and a
server-supplied message. -/
structure Status where
  error_code : Int
  reason : String
  deriving DecidableEq, Repr

/-- Modelled from the spec: the known status-code enumeration (`ErrorCode` in
the generated proto, absent from the sources).  The spec fixes only that it is
an enumeration whose unique no-error value is `Success`; we include `Success`
(wire value 0) together with representative failure codes. -/
inductive ErrorCode where
  | Success
  | UnexpectedError
  | ConnectFailed
  | PermissionDenied
  | CollectionNotExists
  | IllegalArgument
  deriving DecidableEq, Repr

/-- Modelled from the spec: decoding of the wire integer into the known
status-code enumeration (`ErrorCode::from_i32`); values outside the known
enumeration decode to `none`. -/
def ErrorCode.from_i32 (n : Int) : Option ErrorCode :=
  if n = 0 then some .Success
  else if n = 1 then some .UnexpectedError
  else if n = 2 then some .ConnectFailed
  else if n = 3 then some .PermissionDenied
  else if n = 4 then some .CollectionNotExists
  else if n = 5 then some .IllegalArgument
  else none

/-- Modelled from the spec: the error taxonomy of `error.rs` (absent from the
sources).  `Connection`: the transport could not be established (spec's
`ConnectionError`, the variant `Client::new` wraps the transport cause in);
`Communication`: an in-flight call's transport exchange failed, carrying the
cause as-is; `Remote`: the server reported a non-success status, carrying the
code and server-supplied message verbatim; `Unknown`: a response violated the
expected contract (absent status, or a status code outside the known
enumeration). -/
inductive Error where
  | Connection (cause : TransportError)
  | Communication (cause : RpcError)
  | Remote (code : Int) (message : String)
  | Unknown
  deriving DecidableEq, Repr

/-- Modelled from the spec: `Error::from(tonic::Status)` for a failed in-flight
exchange — a `Communication` error surfacing the cause as-is. -/
def Error.fromRpc (e : RpcError) : Error := .Communication e

/-- Modelled from the spec: `Error::from(status)` for a non-success response
status — a `Remote` error carrying the code and message verbatim. -/
def Error.fromStatus (s : Status) : Error := .Remote s.error_code s.reason

/-- `CreateCollectionRequest` as built by `Client::create_collection`
(src/client.rs lines 66-73): base header, db name, collection name, serialized
schema bytes, shard count, consistency level as a wire integer. -/
structure CreateCollectionRequest where
  base : Option MsgBase
  db_name : String
  collection_name : String
  schema : List Nat
  shards_num : Int
  consistency_level : Int
  deriving DecidableEq, Repr

/-- `DropCollectionRequest` as built by `Client::drop_collection`
(src/client.rs lines 95-99). -/
structure DropCollectionRequest where
  base : Option MsgBase
  db_name : String
  collection_name : String
  deriving DecidableEq, Repr

/-- `HasCollectionRequest` as built by `Client::has_collection`
(src/client.rs lines 122-127). -/
structure HasCollectionRequest where
  base : Option MsgBase
  db_name : String
  collection_name : String
  time_stamp : Int
  deriving DecidableEq, Repr

/-- Modelled from the spec: the `HasCollection` response — "boolean existence
flag + status", where the status payload may be absent (the generated
`BoolResponse`, not among the sources). -/
structure BoolResponse where
  status : Option Status
  value : Bool
  deriving DecidableEq, Repr

/-- Modelled from the spec: the consistency-level enumeration, "an externally
defined enumeration (e.g., Strong, Bounded, Eventual) passed through as an
integer code" (the generated enum is not among the sources). -/
inductive ConsistencyLevel where
  | Strong
  | Session
  | Bounded
  | Eventually
  deriving DecidableEq, Repr

/-- The `as i32` cast applied to the consistency level in
`Client::create_collection` (src/client.rs line 72). -/
def ConsistencyLevel.toi32 : ConsistencyLevel → Int
  | .Strong => 0
  | .Session => 1
  | .Bounded => 2
  | .Eventually => 3

/-- Modelled from the spec: an externally supplied schema, consumed by
create-collection.  `schema.convert_collection(name, description)` followed by
prost encoding (src/client.rs lines 59-62) is modelled as one serialization
map `wire` from the tag pair to the wire bytes; `none` is serialization
failure, the case the source `unwrap`s on. -/
structure CollectionSchema where
  wire : String → String → Option (List Nat)

/-- The client (`Client`, src/client.rs lines 31-33): wraps the service stub's
transport channel. -/
structure Client where
  client : Channel
  deriving DecidableEq, Repr

/-- A collection handle (`Collection`): a channel reference plus the bound
name, produced by `Collection::new(channel, name)`. -/
structure Collection where
  client : Channel
  name : String
  deriving DecidableEq, Repr

/-- `Collection::new` as invoked from src/client.rs (lines 81, 151). -/
def Collection.new (client : Channel) (name : String) : Collection :=
  { client := client, name := name }

instance {ε α : Type} [DecidableEq ε] [DecidableEq α] :
    DecidableEq (Except ε α) := fun a b =>
  match a, b with
  | .ok x, .ok y =>
    if h : x = y then .isTrue (by rw [h]) else .isFalse (by simp [h])
  | .error x, .error y =>
    if h : x = y then .isTrue (by rw [h]) else .isFalse (by simp [h])
  | .ok _, .error _ => .isFalse (by simp)
  | .error _, .ok _ => .isFalse (by simp)

/-- The outcome of an operation that may abort fatally before returning:
`fatal` is the `unwrap` panic on schema-serialization failure
(src/client.rs line 62), `result` the normally returned `Result`. -/
inductive OpOutcome (α : Type) where
  | fatal
  | result (r : Except Error α)
  deriving DecidableEq, Repr

/-- `Client::new` (src/client.rs lines 36-45): the transport connection
attempt is passed as its outcome; on success the client wraps the channel, on
failure the transport cause is wrapped in the connection-failure error. -/
def Client.new (connectResult : Except TransportError Channel) :
    Except Error Client :=
  match connectResult with
  | .ok i => .ok { client := i }
  | .error e => .error (.Connection e)

/-- The request message built by `Client::create_collection`
(src/client.rs lines 66-73). -/
def createCollectionRequest (name : String) (buf : List Nat)
    (shards_num : Int) (consistency_level : ConsistencyLevel) :
    CreateCollectionRequest :=
  { base := some (new_msg MsgType.CreateCollection)
    db_name := ""
    collection_name := name
    schema := buf
    shards_num := shards_num
    consistency_level := consistency_level.toi32 }

/-- `Client::create_collection` (src/client.rs lines 47-86).  The transport is
an oracle from the request to the exchange's outcome; the first component of
the result is the list of requests handed to the transport. -/
def Client.create_collection (c : Client) (name description : String)
    (schema : CollectionSchema) (shards_num : Int)
    (consistency_level : ConsistencyLevel)
    (transport : CreateCollectionRequest → Except RpcError Status) :
    List CreateCollectionRequest × OpOutcome Collection :=
  match schema.wire name description with
  | none => ([], .fatal)
  | some buf =>
    let req := createCollectionRequest name buf shards_num consistency_level
    match transport req with
    | .error e => ([req], .result (.error (Error.fromRpc e)))
    | .ok status =>
      ([req],
       .result
         (match ErrorCode.from_i32 status.error_code with
          | some i =>
            match i with
            | .Success => .ok (Collection.new c.client name)
            | _ => .error (Error.fromStatus status)
          | none => .error .Unknown))

/-- The request message built by `Client::drop_collection`
(src/client.rs lines 95-99). -/
def dropCollectionRequest (name : String) : DropCollectionRequest :=
  { base := some (new_msg MsgType.DropCollection)
    db_name := ""
    collection_name := name }

/-- `Client::drop_collection` (src/client.rs lines 88-112). -/
def Client.drop_collection (_c : Client) (name : String)
    (transport : DropCollectionRequest → Except RpcError Status) :
    List DropCollectionRequest × Except Error Unit :=
  let req := dropCollectionRequest name
  match transport req with
  | .error e => ([req], .error (Error.fromRpc e))
  | .ok status =>
    ([req],
     match ErrorCode.from_i32 status.error_code with
     | some i =>
       match i with
       | .Success => .ok ()
       | _ => .error (Error.fromStatus status)
     | none => .error .Unknown)

/-- The request message built by `Client::has_collection`
(src/client.rs lines 122-127). -/
def hasCollectionRequest (name : String) : HasCollectionRequest :=
  { base := some (new_msg MsgType.HasCollection)
    db_name := ""
    collection_name := name
    time_stamp := 0 }

/-- `Client::has_collection` (src/client.rs lines 114-144). -/
def Client.has_collection (_c : Client) (name : String)
    (transport : HasCollectionRequest → Except RpcError BoolResponse) :
    List HasCollectionRequest × Except Error Bool :=
  let req := hasCollectionRequest name
  match transport req with
  | .error e => ([req], .error (Error.fromRpc e))
  | .ok res =>
    ([req],
     match res.status with
     | none => .error .Unknown
     | some status =>
       match ErrorCode.from_i32 status.error_code with
       | some i =>
         match i with
         | .Success => .ok res.value
         | _ => .error (Error.fromStatus status)
       | none => .error .Unknown)

/-- `Client::get_collection` (src/client.rs lines 145-154): composes
`has_collection` and wraps the flag into an optional handle, propagating
errors with `?`. -/
def Client.get_collection (c : Client) (name : String)
    (transport : HasCollectionRequest → Except RpcError BoolResponse) :
    Except Error (Option Collection) :=
  match (c.has_collection name transport).2 with
  | .error e => .error e
  | .ok true => .ok (some (Collection.new c.client name))
  | .ok false => .ok none

/-- A call against the client: the operation with its arguments, including the
transport oracle that will serve the call's exchange. -/
inductive CallEvent where
  | createCall (name description : String) (schema : CollectionSchema)
      (shards_num : Int) (lvl : ConsistencyLevel)
      (t : CreateCollectionRequest → Except RpcError Status)
  | dropCall (name : String)
      (t : DropCollectionRequest → Except RpcError Status)
  | hasCall (name : String)
      (t : HasCollectionRequest → Except RpcError BoolResponse)
  | getCall (name : String)
      (t : HasCollectionRequest → Except RpcError BoolResponse)

/-- The output returned to the caller by one call. -/
inductive CallOutput where
  | created (r : List CreateCollectionRequest × OpOutcome Collection)
  | dropped (r : List DropCollectionRequest × Except Error Unit)
  | hasResult (r : List HasCollectionRequest × Except Error Bool)
  | got (r : Except Error (Option Collection))

/-- The spec's two-state client machine: `Disconnected` before `connect`
succeeds, `Connected` holding the client value afterwards. -/
inductive ClientState where
  | Disconnected
  | Connected (cl : Client)

/-- One call against the state machine.  In `Disconnected` no operation is
callable (`none`).  In `Connected` the operation runs; the four methods take
the receiver by shared borrow (`&self`, src/client.rs lines 47, 88, 114, 145)
and `Client` has no interior-mutability field — each call only clones the
channel — so the post-state carries the same client value. -/
def ClientState.step :
    ClientState → CallEvent → Option (ClientState × CallOutput)
  | .Disconnected, _ => none
  | .Connected cl, .createCall n d s sh lv t =>
      some (.Connected cl, .created (cl.create_collection n d s sh lv t))
  | .Connected cl, .dropCall n t =>
      some (.Connected cl, .dropped (cl.drop_collection n t))
  | .Connected cl, .hasCall n t =>
      some (.Connected cl, .hasResult (cl.has_collection n t))
  | .Connected cl, .getCall n t =>
      some (.Connected cl, .got (cl.get_collection n t))

/-! ## Claim theorems -/

/-- Claim C1: for every RPC response status interpreted by `create_collection`,
`drop_collection` and `has_collection`, the `Success` code yields the
operation's success branch, any other value of the known enumeration yields a
`Remote` error carrying that code, a value outside the known enumeration
yields an `Unknown` error, and no status code other than `Success` ever
reaches a success branch. -/
theorem status_code_interpretation
    (c : Client) (name description : String) (schema : CollectionSchema)
    (buf : List Nat) (shards_num : Int) (lvl : ConsistencyLevel)
    (status : Status) (value : Bool)
    (tc : CreateCollectionRequest → Except RpcError Status)
    (td : DropCollectionRequest → Except RpcError Status)
    (th : HasCollectionRequest → Except RpcError BoolResponse)
    (hw : schema.wire name description = some buf)
    (hc : tc (createCollectionRequest name buf shards_num lvl) = .ok status)
    (hd : td (dropCollectionRequest name) = .ok status)
    (hh : th (hasCollectionRequest name) = .ok ⟨some status, value⟩) :
    (ErrorCode.from_i32 status.error_code = some .Success →
      (c.create_collection name description schema shards_num lvl tc).2
          = .result (.ok (Collection.new c.client name))
        ∧ (c.drop_collection name td).2 = .ok ()
        ∧ (c.has_collection name th).2 = .ok value)
    ∧ (∀ ec, ErrorCode.from_i32 status.error_code = some ec → ec ≠ .Success →
      (c.create_collection name description schema shards_num lvl tc).2
          = .result (.error (.Remote status.error_code status.reason))
        ∧ (c.drop_collection name td).2
            = .error (.Remote status.error_code status.reason)
        ∧ (c.has_collection name th).2
            = .error (.Remote status.error_code status.reason))
    ∧ (ErrorCode.from_i32 status.error_code = none →
      (c.create_collection name description schema shards_num lvl tc).2
          = .result (.error .Unknown)
        ∧ (c.drop_collection name td).2 = .error .Unknown
        ∧ (c.has_collection name th).2 = .error .Unknown)
    ∧ ((∀ col, (c.create_collection name description schema shards_num lvl tc).2
            = .result (.ok col) →
          ErrorCode.from_i32 status.error_code = some .Success)
        ∧ ((c.drop_collection name td).2 = .ok () →
          ErrorCode.from_i32 status.error_code = some .Success)
        ∧ (∀ b, (c.has_collection name th).2 = .ok b →
          ErrorCode.from_i32 status.error_code = some .Success)) := by
  refine ⟨?_, ?_, ?_, ?_, ?_, ?_⟩
  · intro hsucc
    exact ⟨by simp [Client.create_collection, hw, hc, hsucc],
      by simp [Client.drop_collection, hd, hsucc],
      by simp [Client.has_collection, hh, hsucc]⟩
  · intro ec hec hne
    cases ec
    case Success => exact absurd rfl hne
    all_goals
      exact ⟨by simp [Client.create_collection, hw, hc, hec, Error.fromStatus],
        by simp [Client.drop_collection, hd, hec, Error.fromStatus],
        by simp [Client.has_collection, hh, hec, Error.fromStatus]⟩
  · intro hnone
    exact ⟨by simp [Client.create_collection, hw, hc, hnone],
      by simp [Client.drop_collection, hd, hnone],
      by simp [Client.has_collection, hh, hnone]⟩
  · intro col hok
    cases hec : ErrorCode.from_i32 status.error_code with
    | none => simp [Client.create_collection, hw, hc, hec] at hok
    | some ec =>
      cases ec
      case Success => rfl
      all_goals
        simp [Client.create_collection, hw, hc, hec, Error.fromStatus] at hok
  · intro hok
    cases hec : ErrorCode.from_i32 status.error_code with
    | none => simp [Client.drop_collection, hd, hec] at hok
    | some ec =>
      cases ec
      case Success => rfl
      all_goals
        simp [Client.drop_collection, hd, hec, Error.fromStatus] at hok
  · intro b hok
    cases hec : ErrorCode.from_i32 status.error_code with
    | none => simp [Client.has_collection, hh, hec] at hok
    | some ec =>
      cases ec
      case Success => rfl
      all_goals
        simp [Client.has_collection, hh, hec, Error.fromStatus] at hok

/-- Claim C1 witness: with a concrete non-success server status the drop
operation returns the `Remote` error carrying code and message. -/
theorem status_code_interpretation_witness :
    ((Client.mk 0).drop_collection "x" (fun _ => .ok ⟨5, "boom"⟩)).2
      = .error (.Remote 5 "boom") := by
  have h := status_code_interpretation (Client.mk 0) "x" "d"
      ⟨fun _ _ => some [1, 2]⟩ [1, 2] 2 .Strong ⟨5, "boom"⟩ true
      (fun _ => .ok ⟨5, "boom"⟩) (fun _ => .ok ⟨5, "boom"⟩)
      (fun _ => .ok ⟨some ⟨5, "boom"⟩, true⟩) rfl rfl rfl rfl
  exact (h.2.1 .IllegalArgument rfl (by decide)).2.1

/-- Claim C2: `Client::new` fails with the connection-setup error wrapping the
transport-level cause whenever the transport connection attempt fails, and on
success returns a client wrapping the channel, on which every one of the four
operations is callable (the `Connected` state accepts every call event). -/
theorem connect_outcomes :
    (∀ e : TransportError, Client.new (.error e) = .error (.Connection e))
    ∧ ∀ ch : Channel,
        Client.new (.ok ch) = .ok { client := ch }
        ∧ ∀ ev : CallEvent,
            ((ClientState.Connected { client := ch }).step ev).isSome = true := by
  refine ⟨fun e => rfl, fun ch => ⟨rfl, fun ev => ?_⟩⟩
  cases ev <;> rfl

/-- Claim C3: `has_collection` distinguishes three outcomes — transport
failure yields a `Communication` error; a response with no status payload
yields an `Unknown` error regardless of the value flag; with a status present,
`Success` returns the response's boolean flag and any other code of the known
enumeration yields a `Remote` error carrying that code. -/
theorem has_collection_outcomes (c : Client) (name : String)
    (th : HasCollectionRequest → Except RpcError BoolResponse) :
    (∀ e, th (hasCollectionRequest name) = .error e →
      (c.has_collection name th).2 = .error (.Communication e))
    ∧ (∀ v, th (hasCollectionRequest name) = .ok ⟨none, v⟩ →
      (c.has_collection name th).2 = .error .Unknown)
    ∧ ∀ s v, th (hasCollectionRequest name) = .ok ⟨some s, v⟩ →
      (ErrorCode.from_i32 s.error_code = some .Success →
        (c.has_collection name th).2 = .ok v)
      ∧ ∀ ec, ErrorCode.from_i32 s.error_code = some ec → ec ≠ .Success →
        (c.has_collection name th).2
          = .error (.Remote s.error_code s.reason) := by
  refine ⟨?_, ?_, ?_⟩
  · intro e he
    simp [Client.has_collection, he, Error.fromRpc]
  · intro v hv
    simp [Client.has_collection, hv]
  · intro s v hsv
    refine ⟨?_, ?_⟩
    · intro hsucc
      simp [Client.has_collection, hsv, hsucc]
    · intro ec hec hne
      cases ec
      case Success => exact absurd rfl hne
      all_goals simp [Client.has_collection, hsv, hec, Error.fromStatus]

/-- Claim C3 witness: a response with status present, code `Success` and value
`true` yields `Ok true`. -/
theorem has_collection_outcomes_witness :
    ((Client.mk 0).has_collection "x" (fun _ => .ok ⟨some ⟨0, ""⟩, true⟩)).2
      = .ok true :=
  ((has_collection_outcomes (Client.mk 0) "x"
      (fun _ => .ok ⟨some ⟨0, ""⟩, true⟩)).2.2 ⟨0, ""⟩ true rfl).1 rfl

/-- Claim C4: `get_collection` returns `Some` of the handle bound to the name
exactly when `has_collection` returns `Ok true`, `None` exactly when it
returns `Ok false`, and returns exactly the errors `has_collection`
returns, unchanged. -/
theorem get_collection_composes (c : Client) (name : String)
    (th : HasCollectionRequest → Except RpcError BoolResponse) :
    (c.get_collection name th = .ok (some (Collection.new c.client name))
      ↔ (c.has_collection name th).2 = .ok true)
    ∧ (c.get_collection name th = .ok none
      ↔ (c.has_collection name th).2 = .ok false)
    ∧ ∀ e : Error, c.get_collection name th = .error e
      ↔ (c.has_collection name th).2 = .error e := by
  unfold Client.get_collection
  cases hres : (c.has_collection name th).2 with
  | error e => simp
  | ok b => cases b <;> simp

/-- Claim C5: when schema serialization fails, `create_collection` aborts
fatally (the local `unwrap` defect) and the list of requests handed to the
transport is empty — no create request is ever sent. -/
theorem create_serialize_failure (c : Client) (name description : String)
    (schema : CollectionSchema) (shards_num : Int) (lvl : ConsistencyLevel)
    (tc : CreateCollectionRequest → Except RpcError Status)
    (hw : schema.wire name description = none) :
    c.create_collection name description schema shards_num lvl tc
      = ([], .fatal) := by
  simp [Client.create_collection, hw]

/-- Claim C5 witness: a schema whose serialization fails produces the fatal
outcome with zero requests sent. -/
theorem create_serialize_failure_witness :
    (Client.mk 0).create_collection "x" "d" ⟨fun _ _ => none⟩ 1 .Strong
        (fun _ => .ok ⟨0, ""⟩)
      = ([], .fatal) :=
  create_serialize_failure (Client.mk 0) "x" "d" ⟨fun _ _ => none⟩ 1 .Strong
      (fun _ => .ok ⟨0, ""⟩) rfl

/-- Claim C6: when the server replies to `create_collection` with a
non-success status of the known enumeration, the call fails with a `Remote`
error carrying the server's status code and message; when it replies with
`Success`, the call returns a `Collection` handle bound to the given name. -/
theorem create_collection_status (c : Client) (name description : String)
    (schema : CollectionSchema) (buf : List Nat) (shards_num : Int)
    (lvl : ConsistencyLevel)
    (tc : CreateCollectionRequest → Except RpcError Status) (status : Status)
    (hw : schema.wire name description = some buf)
    (hc : tc (createCollectionRequest name buf shards_num lvl) = .ok status) :
    (∀ ec, ErrorCode.from_i32 status.error_code = some ec → ec ≠ .Success →
      (c.create_collection name description schema shards_num lvl tc).2
        = .result (.error (.Remote status.error_code status.reason)))
    ∧ (ErrorCode.from_i32 status.error_code = some .Success →
      (c.create_collection name description schema shards_num lvl tc).2
          = .result (.ok (Collection.new c.client name))
        ∧ (Collection.new c.client name).name = name) := by
  refine ⟨?_, ?_⟩
  · intro ec hec hne
    cases ec
    case Success => exact absurd rfl hne
    all_goals simp [Client.create_collection, hw, hc, hec, Error.fromStatus]
  · intro hsucc
    exact ⟨by simp [Client.create_collection, hw, hc, hsucc], rfl⟩

/-- Claim C6 witness: with a `Success` reply the call returns the handle bound
to the requested name. -/
theorem create_collection_status_witness :
    ((Client.mk 7).create_collection "col" "d" ⟨fun _ _ => some [9]⟩ 2
        .Bounded (fun _ => .ok ⟨0, "ok"⟩)).2
      = .result (.ok (Collection.new 7 "col")) :=
  ((create_collection_status (Client.mk 7) "col" "d" ⟨fun _ _ => some [9]⟩
      [9] 2 .Bounded (fun _ => .ok ⟨0, "ok"⟩) ⟨0, "ok"⟩ rfl rfl).2 rfl).1

/-- Claim C7: every request the three operations hand to the transport carries
a base header whose message-type tag matches the operation, sends `db_name` as
the empty string, and the `HasCollection` request additionally sends the
timestamp field fixed at 0. -/
theorem request_fields (c : Client) (name description : String)
    (schema : CollectionSchema) (shards_num : Int) (lvl : ConsistencyLevel)
    (tc : CreateCollectionRequest → Except RpcError Status)
    (td : DropCollectionRequest → Except RpcError Status)
    (th : HasCollectionRequest → Except RpcError BoolResponse) :
    (∀ r ∈ (c.create_collection name description schema shards_num lvl tc).1,
      r.base = some (new_msg .CreateCollection) ∧ r.db_name = "")
    ∧ (∀ r ∈ (c.drop_collection name td).1,
      r.base = some (new_msg .DropCollection) ∧ r.db_name = "")
    ∧ ∀ r ∈ (c.has_collection name th).1,
      r.base = some (new_msg .HasCollection) ∧ r.db_name = ""
        ∧ r.time_stamp = 0 := by
  refine ⟨?_, ?_, ?_⟩
  · intro r hr
    cases hw : schema.wire name description with
    | none => simp [Client.create_collection, hw] at hr
    | some buf =>
      cases htc : tc (createCollectionRequest name buf shards_num lvl) with
      | error e =>
        simp [Client.create_collection, hw, htc] at hr
        subst hr
        exact ⟨rfl, rfl⟩
      | ok s =>
        simp [Client.create_collection, hw, htc] at hr
        subst hr
        exact ⟨rfl, rfl⟩
  · intro r hr
    cases htd : td (dropCollectionRequest name) with
    | error e =>
      simp [Client.drop_collection, htd] at hr
      subst hr
      exact ⟨rfl, rfl⟩
    | ok s =>
      simp [Client.drop_collection, htd] at hr
      subst hr
      exact ⟨rfl, rfl⟩
  · intro r hr
    cases hth : th (hasCollectionRequest name) with
    | error e =>
      simp [Client.has_collection, hth] at hr
      subst hr
      exact ⟨rfl, rfl, rfl⟩
    | ok s =>
      simp [Client.has_collection, hth] at hr
      subst hr
      exact ⟨rfl, rfl, rfl⟩

/-- Claim C7 witness: the drop request sent for a concrete call carries the
`DropCollection` tag and an empty db name. -/
theorem request_fields_witness :
    (dropCollectionRequest "x").base = some (new_msg .DropCollection)
      ∧ (dropCollectionRequest "x").db_name = "" :=
  (request_fields (Client.mk 0) "x" "d" ⟨fun _ _ => some []⟩ 1 .Strong
      (fun _ => .ok ⟨0, ""⟩) (fun _ => .ok ⟨0, ""⟩)
      (fun _ => .ok ⟨some ⟨0, ""⟩, true⟩)).2.1 (dropCollectionRequest "x")
    (by simp [Client.drop_collection])

/-- Claim C8: when the transport exchange of an in-flight call fails with
cause `e`, each of the three operations hands exactly one request to the
transport (no automatic retry) and returns the `Communication` error carrying
`e` as-is. -/
theorem transport_failure_surfaced (c : Client) (name description : String)
    (schema : CollectionSchema) (buf : List Nat) (shards_num : Int)
    (lvl : ConsistencyLevel) (e : RpcError)
    (tc : CreateCollectionRequest → Except RpcError Status)
    (td : DropCollectionRequest → Except RpcError Status)
    (th : HasCollectionRequest → Except RpcError BoolResponse)
    (hw : schema.wire name description = some buf)
    (hc : tc (createCollectionRequest name buf shards_num lvl) = .error e)
    (hd : td (dropCollectionRequest name) = .error e)
    (hh : th (hasCollectionRequest name) = .error e) :
    c.create_collection name description schema shards_num lvl tc
        = ([createCollectionRequest name buf shards_num lvl],
           .result (.error (.Communication e)))
    ∧ c.drop_collection name td
        = ([dropCollectionRequest name], .error (.Communication e))
    ∧ c.has_collection name th
        = ([hasCollectionRequest name], .error (.Communication e)) :=
  ⟨by simp [Client.create_collection, hw, hc, Error.fromRpc],
   by simp [Client.drop_collection, hd, Error.fromRpc],
   by simp [Client.has_collection, hh, Error.fromRpc]⟩

/-- Claim C8 witness: a failed exchange surfaces the `Communication` error for
a concrete call. -/
theorem transport_failure_surfaced_witness :
    ((Client.mk 0).has_collection "x" (fun _ => .error "netdown")).2
      = .error (.Communication "netdown") := by
  have h := transport_failure_surfaced (Client.mk 0) "x" "d"
      ⟨fun _ _ => some []⟩ [] 1 .Strong "netdown" (fun _ => .error "netdown")
      (fun _ => .error "netdown") (fun _ => .error "netdown") rfl rfl rfl rfl
  exact congrArg Prod.snd h.2.2

/-- Claim C9: every call performed in the `Connected` state — whatever its
arguments, transport behaviour, and outcome, success or failure — leaves the
state machine in `Connected` with the same client value, and every operation
remains callable afterwards (the step relation accepts every further call). -/
theorem operations_preserve_client (cl : Client) (ev : CallEvent) :
    ((ClientState.Connected cl).step ev).map Prod.fst
        = some (.Connected cl)
    ∧ ∀ ev2 : CallEvent,
        ((ClientState.Connected cl).step ev2).isSome = true := by
  constructor
  · cases ev <;> rfl
  · intro ev2; cases ev2 <;> rfl

/-- Claim C10: the boolean value flag of a `HasCollection` response cannot
influence the result when the status is absent or carries a non-success code —
two responses identical except for the value flag then yield one and the same
error. -/
theorem has_value_noninterference (c : Client) (name : String)
    (t1 t2 : HasCollectionRequest → Except RpcError BoolResponse)
    (st : Option Status) (v1 v2 : Bool)
    (h1 : t1 (hasCollectionRequest name) = .ok ⟨st, v1⟩)
    (h2 : t2 (hasCollectionRequest name) = .ok ⟨st, v2⟩)
    (hbad : ∀ s, st = some s →
      ErrorCode.from_i32 s.error_code ≠ some .Success) :
    (c.has_collection name t1).2 = (c.has_collection name t2).2
    ∧ ∃ e : Error, (c.has_collection name t1).2 = .error e := by
  cases st with
  | none =>
    exact ⟨by simp [Client.has_collection, h1, h2], .Unknown,
      by simp [Client.has_collection, h1]⟩
  | some s =>
    have hs := hbad s rfl
    cases hec : ErrorCode.from_i32 s.error_code with
    | none =>
      exact ⟨by simp [Client.has_collection, h1, h2, hec], .Unknown,
        by simp [Client.has_collection, h1, hec]⟩
    | some ec =>
      cases ec
      case Success => exact absurd hec hs
      all_goals
        exact ⟨by simp [Client.has_collection, h1, h2, hec],
          .Remote s.error_code s.reason,
          by simp [Client.has_collection, h1, hec, Error.fromStatus]⟩

/-- Claim C10 witness: with a non-success status, flipping the value flag does
not change the result. -/
theorem has_value_noninterference_witness :
    ((Client.mk 0).has_collection "x"
        (fun _ => .ok ⟨some ⟨5, "e"⟩, true⟩)).2
      = ((Client.mk 0).has_collection "x"
          (fun _ => .ok ⟨some ⟨5, "e"⟩, false⟩)).2 :=
  (has_value_noninterference (Client.mk 0) "x"
      (fun _ => .ok ⟨some ⟨5, "e"⟩, true⟩)
      (fun _ => .ok ⟨some ⟨5, "e"⟩, false⟩) (some ⟨5, "e"⟩) true false rfl rfl
      (by intro s hs; cases hs; decide)).1

end MilvusClient
